/-
  Verification of the VRChat avatar manager (SMP.py, api_patch.py).

  Shallow embedding of the core logic: download-URL resolution, paginated
  fetching, login/2FA routing, client-side filtering and pagination, and the
  streamed file download worker.  Python dictionaries holding avatar records
  are embedded as structures with `Option String` fields (a missing key is
  `none`); Python truthiness of a string field (`if d['k']`) means the field
  is present and non-empty.
-/
import Mathlib

set_option linter.unusedVariables false

/-- Python's `pat in s` substring test on strings, decided via list infix. -/
def pyIn (pat s : String) : Bool :=
  decide (pat.data <:+: s.data)

/-- Truthiness of an optional string field of a Python dict:
`'k' in d and d['k']` is true iff the key is present with a non-empty value. -/
def truthy : Option String → Bool
  | none => false
  | some s => s != ""

/-- One entry of a detailed avatar record's `unityPackages` array
(SMP.py, continue_avatar_download): the fields the download engine reads. -/
structure UnityPackage where
  platform : String
  assetUrl : Option String
deriving DecidableEq, Repr

/-- The fields of a detailed avatar record inspected by the download-URL
resolution logic (SMP.py lines 2358-2407). -/
structure AvatarData where
  unityPackages : List UnityPackage
  assetUrl : Option String
deriving DecidableEq, Repr

/-- PRIORITY 1 of `continue_avatar_download` (SMP.py 2371-2381): the code
filters the packages by `platform == 'standalonewindows'`, takes element 0 of
the filtered list, and uses its `assetUrl` if present and non-empty. -/
def priority1 (a : AvatarData) : Option String :=
  match (a.unityPackages.filter (fun pkg => pkg.platform == "standalonewindows")).head? with
  | some windows_pkg =>
      if truthy windows_pkg.assetUrl then windows_pkg.assetUrl else none
  | none => none

/-- PRIORITY 2 (SMP.py 2383-2390): the first package in listed order whose
`assetUrl` is present and non-empty. -/
def priority2 (a : AvatarData) : Option String :=
  (a.unityPackages.find? (fun pkg => truthy pkg.assetUrl)).bind
    (fun pkg => pkg.assetUrl)

/-- PRIORITY 3 (SMP.py 2394-2397): the record's top-level `assetUrl`, if
present and non-empty. -/
def priority3 (a : AvatarData) : Option String :=
  if truthy a.assetUrl then a.assetUrl else none

/-- Download-URL resolution, embedded from `continue_avatar_download`
(SMP.py lines 2358-2407).  Priorities 1 and 2 are only attempted when
`unityPackages` is present and non-empty (the `if 'unityPackages' in
avatar_data and avatar_data['unityPackages']` guard); priority 3 is attempted
whenever no URL was found before it; `none` is the "no downloadable file URL
found" outcome. -/
def resolveDownloadUrl (a : AvatarData) : Option String :=
  match (if a.unityPackages.isEmpty then none
         else match priority1 a with
              | some url => some url
              | none => priority2 a) with
  | some url => some url
  | none => priority3 a

/-- Priority 1 exactly as the claim words it: the asset URL of the (first)
nested package whose platform equals `standalonewindows`, if that package has
a non-empty asset URL. -/
def claimPriority1 (a : AvatarData) : Option String :=
  match a.unityPackages.find? (fun pkg => pkg.platform == "standalonewindows") with
  | some wp => if truthy wp.assetUrl then wp.assetUrl else none
  | none => none

/-- The resolution priority exactly as the claim states it: (1) the
`standalonewindows` package's asset URL when non-empty, (2) otherwise the
first package in listed order with a non-empty asset URL, (3) otherwise the
top-level asset URL when present and non-empty, (4) otherwise failure. -/
def claimResolveDownloadUrl (a : AvatarData) : Option String :=
  match claimPriority1 a with
  | some url => some url
  | none => match priority2 a with
            | some url => some url
            | none => priority3 a

/-- The pagination loop of `fetch_avatars_worker` (SMP.py 1972-2034).
`resp` maps an `offset` to the page response for that offset: its HTTP status
and its decoded record list (records are opaque, type `α`).  The result is
the list of offsets requested, in request order, paired with the outcome:
an `API error: <status>` exception on a non-200 page, otherwise the
accumulated records.  The loop runs at most `fuel` (= `max_pages`) times;
it breaks after an empty page without extending, after a short page
(`len < 100`) after extending, and otherwise advances `offset` by the page
size 100. -/
def fetchPages {α : Type} (resp : Nat → Nat × List α) :
    Nat → Nat → List Nat × Except String (List α)
  | 0, _ => ([], Except.ok [])
  | fuel + 1, offset =>
      if (resp offset).1 ≠ 200 then
        ([offset], Except.error ("API error: " ++ toString (resp offset).1))
      else if (resp offset).2.isEmpty then ([offset], Except.ok [])
      else if (resp offset).2.length < 100 then ([offset], Except.ok (resp offset).2)
      else
        match fetchPages resp fuel (offset + 100) with
        | (os, Except.ok rest) => (offset :: os, Except.ok ((resp offset).2 ++ rest))
        | (os, Except.error e) => (offset :: os, Except.error e)

/-- `fetch_avatars_worker` (SMP.py 1957-2034): `max_pages = 10`, starting
offset 0, page size 100. -/
def fetch_avatars_worker {α : Type} (resp : Nat → Nat × List α) :
    List Nat × Except String (List α) :=
  fetchPages resp 10 0

/-- Outcome of `login_worker`'s handler for an `UnauthorizedException`
(SMP.py 1767-1791): either a two-factor continuation (with its email /
authenticator sub-kind) or a plain failure carrying the raw reason text. -/
inductive LoginOutcome where
  | need2fa (is_email : Bool)
  | failure (reason : String)
deriving DecidableEq, Repr

/-- The `UnauthorizedException` handler of `login_worker` (SMP.py 1767-1791):
the 2FA routing block runs only under `if e.status == 200`; inside it the
reason is matched first against `"Email 2 Factor Authentication"`, then
against `"2 Factor Authentication"`; every other case falls through to
`{"success": False, "error": e.reason}`. -/
def login_unauthorized_route (status : Nat) (reason : String) : LoginOutcome :=
  if status = 200 then
    if pyIn "Email 2 Factor Authentication" reason then .need2fa true
    else if pyIn "2 Factor Authentication" reason then .need2fa false
    else .failure reason
  else .failure reason

/-- The routing exactly as the claim words it, on the reason text alone:
Email-2FA substring → email step, any other 2FA substring → authenticator
step, neither → plain failure with the raw reason. -/
def claimLoginRoute (reason : String) : LoginOutcome :=
  if pyIn "Email 2 Factor Authentication" reason then .need2fa true
  else if pyIn "2 Factor Authentication" reason then .need2fa false
  else .failure reason

/-- `validate_code_input` (SMP.py 1004-1008): on every text change the field
content is replaced by its digit-only subsequence
(`''.join(filter(str.isdigit, text))`). -/
def validate_code_input (text : String) : String :=
  ⟨text.data.filter Char.isDigit⟩

/-- The 2FA dialog's code field (SMP.py 969-974) has
`setMaxLength(6)`: the widget truncates entered text to 6 characters before
`validate_code_input` sees it. -/
def twofactor_field_text (typed : String) : String :=
  validate_code_input ⟨typed.data.take 6⟩

/-- `get_code` (SMP.py 1010-1011): the submitted code is whatever text the
field holds when the dialog is accepted. -/
def get_code (typed : String) : String :=
  twofactor_field_text typed

/-- The Verify button (SMP.py 990-992) is wired directly to `accept`
(`self.verify_btn.clicked.connect(self.accept)`): the dialog accepts with no
client-side check on the code at all. -/
def twofactor_accepts (typed : String) : Bool :=
  true

/-- The record fields read by `filter_avatars` (SMP.py 2070-2072), each via
`.get(key, '')`: a missing field acts as the empty string. -/
structure AvatarRecord where
  name : Option String
  authorName : Option String
  description : Option String
deriving DecidableEq, Repr

/-- Python's `str.lower()` (character-wise lowering; the source only ever
compares ASCII search text, where the two agree). -/
def pyLower (s : String) : String :=
  ⟨s.data.map Char.toLower⟩

/-- The match test of the `filter_avatars` loop (SMP.py 2070-2072), given the
already-lowercased search text: substring of lowercased name, author
(`authorName`) or description, OR across the three. -/
def avatarMatches (filter_text : String) (a : AvatarRecord) : Bool :=
  pyIn filter_text (pyLower (a.name.getD "")) ||
  pyIn filter_text (pyLower (a.authorName.getD "")) ||
  pyIn filter_text (pyLower (a.description.getD ""))

/-- The list computation of `filter_avatars` (SMP.py 2062-2080): the search
text is lowercased; when it is non-empty the full data set is filtered in
order by `avatarMatches`, otherwise the full data set is used unchanged. -/
def filter_avatars_list (search_text : String)
    (avatars_data : List AvatarRecord) : List AvatarRecord :=
  if pyLower search_text != "" then
    avatars_data.filter (fun a => avatarMatches (pyLower search_text) a)
  else avatars_data

/-- The claim's membership predicate: the filter text is a case-insensitive
substring of the name field, or of the author field, or of the description
field, missing fields treated as empty. -/
def claimMatches (filter_text : String) (a : AvatarRecord) : Bool :=
  pyIn (pyLower filter_text) (pyLower (a.name.getD "")) ||
  pyIn (pyLower filter_text) (pyLower (a.authorName.getD "")) ||
  pyIn (pyLower filter_text) (pyLower (a.description.getD ""))

/-- The page slice of `display_current_page` (SMP.py 2163-2166):
`filtered[(page-1)*per_page : min((page-1)*per_page + per_page, len)]`. -/
def display_page_slice {α : Type} (current_page items_per_page : Nat)
    (filtered : List α) : List α :=
  (filtered.drop ((current_page - 1) * items_per_page)).take items_per_page

/-- The mutable state of `PaginationWidget` (SMP.py 689-697). -/
structure PaginationWidget where
  current_page : Nat
  total_pages : Nat
  items_per_page : Nat
deriving DecidableEq, Repr

/-- `PaginationWidget.__init__` (SMP.py 692-696): page 1 of 1; the page-size
combo box defaults to index 2, i.e. 50 per page (SMP.py 741-743). -/
def paginationInit : PaginationWidget :=
  { current_page := 1, total_pages := 1, items_per_page := 50 }

/-- `set_page_count` (SMP.py 779-782): `total_pages = max(1, ceil)` with the
ceiling computed as `(total_items + items_per_page - 1) // items_per_page`,
then `current_page = min(current_page, total_pages)`. -/
def set_page_count (total_items : Nat) (w : PaginationWidget) : PaginationWidget :=
  { w with
    total_pages := max 1 ((total_items + w.items_per_page - 1) / w.items_per_page),
    current_page := min w.current_page
      (max 1 ((total_items + w.items_per_page - 1) / w.items_per_page)) }

/-- `prev_page` (SMP.py 792-796): decrement only when above page 1. -/
def prev_page (w : PaginationWidget) : PaginationWidget :=
  if w.current_page > 1 then { w with current_page := w.current_page - 1 } else w

/-- `next_page` (SMP.py 798-802): increment only when below the last page. -/
def next_page (w : PaginationWidget) : PaginationWidget :=
  if w.current_page < w.total_pages then
    { w with current_page := w.current_page + 1 }
  else w

/-- The combo-index-to-page-size map of `change_items_per_page`
(SMP.py 804-807): `{0: 10, 1: 25, 2: 50, 3: 100}.get(index, 50)`. -/
def items_map (index : Nat) : Nat :=
  match index with
  | 0 => 10
  | 1 => 25
  | 2 => 50
  | 3 => 100
  | _ => 50

/-- `change_items_per_page` (SMP.py 804-815): only when the mapped size
differs from the current one does it store the new size and reset
`current_page` to 1; `total_pages` is not recomputed here. -/
def change_items_per_page (index : Nat) (w : PaginationWidget) : PaginationWidget :=
  if items_map index != w.items_per_page then
    { w with items_per_page := items_map index, current_page := 1 }
  else w

/-- The manager state touched by `filter_avatars` (SMP.py 1017-1021 for the
initial fields, 2062-2091 for the method). -/
structure ManagerState where
  avatars_data : List AvatarRecord
  filtered_avatars : List AvatarRecord
  current_page : Nat
  items_per_page : Nat
  pagination : PaginationWidget
deriving DecidableEq, Repr

/-- `filter_avatars` (SMP.py 2062-2091) as a state transformer: recompute
`filtered_avatars` from the full data set, set both the manager's
`current_page` and the pagination widget's `current_page` to 1, then call
`set_page_count(len(filtered))` on the widget. -/
def filter_avatars (search_text : String) (m : ManagerState) : ManagerState :=
  { m with
    filtered_avatars := filter_avatars_list search_text m.avatars_data,
    current_page := 1,
    pagination := set_page_count (filter_avatars_list search_text m.avatars_data).length
      { m.pagination with current_page := 1 } }

/-- The longest prefix of `l` strictly before the first occurrence of `sep`:
for a non-empty separator this is Python's `l.split(sep)[0]`. -/
def takeUntilSep (sep : List Char) : List Char → List Char
  | [] => []
  | c :: rest =>
      if sep.isPrefixOf (c :: rest) then [] else c :: takeUntilSep sep rest

/-- The path segment stripped before downloading (SMP.py 2410, 2574). -/
def securityVariantSegment : String := "/variant/security"

/-- URL post-processing shared by `continue_avatar_download` (SMP.py
2409-2412) and `download_file_worker` (SMP.py 2573-2576):
`if '/variant/security' in url: url = url.split('/variant/security')[0]`. -/
def fixDownloadUrl (url : String) : String :=
  if pyIn securityVariantSegment url then
    ⟨takeUntilSep securityVariantSegment.data url.data⟩
  else url

/-- The response to the streamed GET of `download_file_worker`: HTTP status,
the `content-length` value (`int(response.headers.get('content-length', 0))`,
so 0 when the header is absent), and the sizes of the chunks yielded by
`iter_content(chunk_size=8192)`. -/
structure DownloadResponse where
  status : Nat
  contentLength : Nat
  chunks : List Nat
deriving DecidableEq, Repr

/-- The progress text of SMP.py 2629 (`"Downloading file... X MB / Y MB
(P%)"`); the source renders the byte counts as float-formatted megabytes,
which no claim depends on, so the counts appear here as raw byte values. -/
def progressMessage (downloaded total_size percent : Nat) : String :=
  "Downloading file... " ++ toString downloaded ++ " / " ++
    toString total_size ++ " bytes (" ++ toString percent ++ "%)"

/-- The chunk loop of `download_file_worker` (SMP.py 2615-2635), collecting
the progress signals it emits in order.  Falsy (empty) chunks are skipped;
for each written chunk, when `total_size > 0`, the percent is
`int(downloaded * 100 / total_size)` and the signal is emitted under the
guard `if percent % 1 == 0` — kept verbatim from the source. -/
def downloadChunkLoop (total_size : Nat) : List Nat → Nat → List (Nat × String)
  | [], _ => []
  | c :: rest, downloaded =>
      if c ≠ 0 then
        (if total_size > 0 then
          (if (downloaded + c) * 100 / total_size % 1 == 0 then
            [((downloaded + c) * 100 / total_size,
              progressMessage (downloaded + c) total_size
                ((downloaded + c) * 100 / total_size))]
          else [])
        else []) ++ downloadChunkLoop total_size rest (downloaded + c)
      else downloadChunkLoop total_size rest downloaded

/-- Observable outcome of `download_file_worker` (SMP.py 2569-2646): whether
the destination file was opened, how many bytes were written to it, the
progress signals emitted in order, and the result (the returned dict's path
on success, the raised exception's message on failure). -/
structure DownloadOutcome where
  fileOpened : Bool
  bytesWritten : Nat
  progressEmits : List (Nat × String)
  result : Except String String
deriving Repr

/-- `download_file_worker` (SMP.py 2569-2646): fix the URL, issue the GET; a
non-200 status raises `"Download failed with status <status>"` before
`open(output_path, 'wb')` is reached, so the destination is never opened on
that path; otherwise the body is streamed to the destination chunk by chunk
with the progress signals of `downloadChunkLoop`. -/
def download_file_worker (file_url output_path : String)
    (resp : DownloadResponse) : DownloadOutcome :=
  if resp.status ≠ 200 then
    { fileOpened := false, bytesWritten := 0, progressEmits := [],
      result := Except.error ("Download failed with status " ++ toString resp.status) }
  else
    { fileOpened := true,
      bytesWritten := resp.chunks.sum,
      progressEmits := downloadChunkLoop resp.contentLength resp.chunks 0,
      result := Except.ok output_path }

/-- The URL actually fetched by `download_file_worker` (SMP.py 2573-2576,
2594-2600) for a given input URL. -/
def download_request_url (file_url : String) : String :=
  fixDownloadUrl file_url

theorem head?_filter_eq_find? {α : Type} (p : α → Bool) (l : List α) :
    (l.filter p).head? = l.find? p := by
  induction l with
  | nil => rfl
  | cons x xs ih =>
      by_cases h : p x
      · simp [List.filter_cons, List.find?, h]
      · simp only [List.filter_cons, List.find?, h]
        simp [h, ih]

theorem fetchPages_spec {α : Type} (resp : Nat → Nat × List α)
    (h200 : ∀ o, (resp o).1 = 200) :
    ∀ fuel start, ∃ k, k ≤ fuel ∧ (fuel ≠ 0 → k ≠ 0) ∧
      (fetchPages resp fuel start).1 =
        (List.range k).map (fun i => start + 100 * i) ∧
      (fetchPages resp fuel start).2 =
        Except.ok ((fetchPages resp fuel start).1.flatMap (fun o => (resp o).2)) ∧
      (∀ i, i + 1 < k → 100 ≤ ((resp (start + 100 * i)).2).length) ∧
      (k < fuel → ((resp (start + 100 * (k - 1))).2).length < 100) := by
  intro fuel
  induction fuel with
  | zero =>
      intro start
      exact ⟨0, by simp [fetchPages]⟩
  | succ f ih =>
      intro start
      by_cases hemp : (resp start).2.isEmpty
      · refine ⟨1, by omega, by omega, ?_, ?_, by omega, ?_⟩
        · simp [fetchPages, h200 start, hemp, List.range_succ]
        · simp [fetchPages, h200 start, hemp,
            List.isEmpty_iff.mp hemp]
        · intro _
          simp [List.isEmpty_iff.mp hemp]
      · by_cases hshort : (resp start).2.length < 100
        · refine ⟨1, by omega, by omega, ?_, ?_, by omega, ?_⟩
          · simp [fetchPages, h200 start, hemp, hshort, List.range_succ]
          · simp [fetchPages, h200 start, hemp, hshort]
          · intro _
            simpa using hshort
        · obtain ⟨k', hk'le, hk'ne, hoff, hres, hfull, hlast⟩ := ih (start + 100)
          rcases hrec : fetchPages resp f (start + 100) with ⟨os, rres⟩
          rw [hrec] at hoff hres
          dsimp only at hoff hres
          cases rres with
          | error e => simp at hres
          | ok rest =>
              have heq : fetchPages resp (f + 1) start =
                  (start :: os, Except.ok ((resp start).2 ++ rest)) := by
                simp [fetchPages, h200 start, hemp, hshort, hrec]
              refine ⟨k' + 1, by omega, by omega, ?_, ?_, ?_, ?_⟩
              · rw [heq]
                simp only [List.range_succ_eq_map, List.map_cons, List.map_map]
                refine congrArg₂ _ (by omega) ?_
                rw [hoff]
                refine List.map_congr_left (fun i _ => ?_)
                simp [Function.comp]
                omega
              · rw [heq]
                simp only []
                have : rest = os.flatMap (fun o => (resp o).2) := by
                  simpa using hres
                simp [this]
              · intro i hi
                cases i with
                | zero => simpa using Nat.le_of_not_lt hshort
                | succ j =>
                    have := hfull j (by omega)
                    have harith : start + 100 + 100 * j = start + 100 * (j + 1) := by
                      omega
                    rwa [harith] at this
              · intro hk
                have hf : f ≠ 0 := by omega
                have hk'pos : k' ≠ 0 := hk'ne hf
                have := hlast (by omega)
                have harith : start + 100 + 100 * (k' - 1) = start + 100 * (k' + 1 - 1) := by
                  omega
                rwa [harith] at this

/-- C2: with every page returning HTTP 200, the paginated fetch requests
offsets 0, 100, ..., 100·(k−1) for some 1 ≤ k ≤ 10 (hence no duplicate
offsets), returns the concatenation of the requested pages in request order
as a non-error result, every page before the last one was full (100 records),
and if it stopped before the 10-page cap then the last requested page was
short (fewer than 100 records, including the empty-page case). -/
theorem c2_fetch_pagination {α : Type} (resp : Nat → Nat × List α)
    (h200 : ∀ o, (resp o).1 = 200) :
    ∃ k, 1 ≤ k ∧ k ≤ 10 ∧
      (fetch_avatars_worker resp).1 = (List.range k).map (fun i => 100 * i) ∧
      (fetch_avatars_worker resp).1.Nodup ∧
      (fetch_avatars_worker resp).2 =
        Except.ok ((fetch_avatars_worker resp).1.flatMap (fun o => (resp o).2)) ∧
      (∀ i, i + 1 < k → 100 ≤ ((resp (100 * i)).2).length) ∧
      (k < 10 → ((resp (100 * (k - 1))).2).length < 100) := by
  obtain ⟨k, hkle, hkne, hoff, hres, hfull, hlast⟩ := fetchPages_spec resp h200 10 0
  have hoff' : (fetch_avatars_worker resp).1 =
      (List.range k).map (fun i => 100 * i) := by
    rw [fetch_avatars_worker, hoff]
    exact List.map_congr_left (fun i _ => by omega)
  refine ⟨k, by omega, hkle, hoff', ?_, ?_, ?_, ?_⟩
  · rw [hoff']
    exact (List.nodup_range k).map (fun a b h => by omega)
  · exact hres
  · intro i hi
    simpa using hfull i hi
  · intro hk
    simpa using hlast hk

/-- Witness for C2 at the concrete input where every page is an HTTP 200
response with an empty record list. -/
theorem c2_fetch_pagination_witness :
    ∃ k, 1 ≤ k ∧ k ≤ 10 ∧
      (fetch_avatars_worker (fun _ => (200, ([] : List Nat)))).1 =
        (List.range k).map (fun i => 100 * i) ∧
      (fetch_avatars_worker (fun _ => (200, ([] : List Nat)))).1.Nodup ∧
      (fetch_avatars_worker (fun _ => (200, ([] : List Nat)))).2 =
        Except.ok ((fetch_avatars_worker (fun _ => (200, ([] : List Nat)))).1.flatMap
          (fun o => ((fun (_ : Nat) => (200, ([] : List Nat))) o).2)) ∧
      (∀ i, i + 1 < k →
        100 ≤ (((fun (_ : Nat) => (200, ([] : List Nat))) (100 * i)).2).length) ∧
      (k < 10 →
        (((fun (_ : Nat) => (200, ([] : List Nat))) (100 * (k - 1))).2).length < 100) :=
  c2_fetch_pagination (fun _ => (200, [])) (fun _ => rfl)

theorem priority1_eq_claimPriority1 (a : AvatarData) :
    priority1 a = claimPriority1 a := by
  unfold priority1 claimPriority1
  rw [head?_filter_eq_find?]

/-- C1: download-URL resolution follows the stated priority order
(standalonewindows package, then first package with a non-empty asset URL,
then the top-level asset URL, then failure), and matches the three concrete
examples of the claim. -/
theorem c1_resolve_download_url_priority :
    (∀ a : AvatarData, resolveDownloadUrl a = claimResolveDownloadUrl a)
    ∧ resolveDownloadUrl
        ⟨[⟨"android", some "A"⟩, ⟨"standalonewindows", some "B"⟩], none⟩ = some "B"
    ∧ resolveDownloadUrl ⟨[⟨"android", some "A"⟩], none⟩ = some "A"
    ∧ resolveDownloadUrl ⟨[], some "C"⟩ = some "C"
    ∧ resolveDownloadUrl ⟨[], none⟩ = none := by
  refine ⟨fun a => ?_, by decide, by decide, by decide, by decide⟩
  unfold resolveDownloadUrl claimResolveDownloadUrl
  rw [priority1_eq_claimPriority1]
  by_cases hempty : a.unityPackages.isEmpty
  · have hnil : a.unityPackages = [] := by
      simpa [List.isEmpty_iff] using hempty
    simp [claimPriority1, priority2, hnil]
  · simp only [hempty, Bool.false_eq_true, if_false]
    cases claimPriority1 a <;> cases priority2 a <;> rfl

/-- C3 counterexample: an unauthorized response with status 401 whose reason
contains "2 Factor Authentication" is routed by the code to a plain failure,
not to the authenticator two-factor step the claim requires. -/
theorem c3_counterexample :
    login_unauthorized_route 401 "Requires 2 Factor Authentication" =
      LoginOutcome.failure "Requires 2 Factor Authentication" ∧
    claimLoginRoute "Requires 2 Factor Authentication" = LoginOutcome.need2fa false ∧
    login_unauthorized_route 401 "Requires 2 Factor Authentication" ≠
      claimLoginRoute "Requires 2 Factor Authentication" := by
  refine ⟨?_, ?_, ?_⟩ <;> decide

/-- C3 amended: the reason-text routing applies exactly to unauthorized
responses whose status field equals 200 (the SDK's 2FA-required signal):
for those, an "Email 2 Factor Authentication" reason goes to the email step,
any other reason containing "2 Factor Authentication" goes to the
authenticator step, and anything else is a plain failure with the raw
reason; an unauthorized response with any other status is always a plain
failure, even when its reason mentions two-factor authentication. -/
theorem c3_login_routing_amended :
    (∀ status reason, login_unauthorized_route status reason =
        if status = 200 then claimLoginRoute reason
        else LoginOutcome.failure reason)
    ∧ login_unauthorized_route 200 "Email 2 Factor Authentication required"
        = LoginOutcome.need2fa true
    ∧ login_unauthorized_route 200 "Requires 2 Factor Authentication"
        = LoginOutcome.need2fa false
    ∧ login_unauthorized_route 200 "Invalid Username or Password"
        = LoginOutcome.failure "Invalid Username or Password" := by
  refine ⟨fun status reason => ?_, by decide, by decide, by decide⟩
  unfold login_unauthorized_route claimLoginRoute
  by_cases h : status = 200 <;> simp [h]

/-- C9 counterexample: the dialog performs no exact-length check — typing
"123" yields the submitted code "123", and pressing Verify accepts it even
though it is not a six-digit code. -/
theorem c9_counterexample :
    twofactor_accepts "123" = true ∧ get_code "123" = "123" ∧
    (get_code "123").length ≠ 6 := by
  refine ⟨rfl, ?_, ?_⟩ <;> decide

/-- C9 amended: for any text entered into the code field (the widget caps
entry at 6 characters), the submitted code is the input with all non-digit
characters removed (filtering, not rejection), has length at most 6, and
consists of digits only — but client-side acceptance requires nothing more:
any such code, including codes shorter than six digits, is submitted. -/
theorem c9_twofactor_code_amended (t : String) (h : t.length ≤ 6) :
    get_code t = ⟨t.data.filter Char.isDigit⟩ ∧
    (get_code t).length ≤ 6 ∧
    (get_code t).data.all Char.isDigit = true ∧
    twofactor_accepts t = true := by
  have hlen : t.data.length ≤ 6 := h
  have htake : t.data.take 6 = t.data := List.take_of_length_le hlen
  have hcode : get_code t = ⟨t.data.filter Char.isDigit⟩ := by
    simp [get_code, twofactor_field_text, validate_code_input, htake]
  refine ⟨hcode, ?_, ?_, rfl⟩
  · rw [hcode]
    calc (String.mk (t.data.filter Char.isDigit)).length
        = (t.data.filter Char.isDigit).length := rfl
      _ ≤ t.data.length := t.data.length_filter_le Char.isDigit
      _ ≤ 6 := hlen
  · rw [hcode]
    simp only [List.all_eq_true]
    intro c hc
    exact (List.mem_filter.mp hc).2

/-- Witness for C9's amended statement at the concrete input "a1b2c3". -/
theorem c9_twofactor_code_amended_witness :
    ("a1b2c3" : String).length ≤ 6 ∧
    (get_code "a1b2c3" = ⟨("a1b2c3" : String).data.filter Char.isDigit⟩ ∧
     (get_code "a1b2c3").length ≤ 6 ∧
     (get_code "a1b2c3").data.all Char.isDigit = true ∧
     twofactor_accepts "a1b2c3" = true) :=
  ⟨by decide, c9_twofactor_code_amended "a1b2c3" (by decide)⟩

/-- C8 counterexample: selecting the page size already in effect (combo
index 2 ↦ 50 per page, the default) is not a change, so the widget's current
page stays at 2 instead of being reset to 1. -/
theorem c8_counterexample :
    (next_page (set_page_count 120 paginationInit)).current_page = 2 ∧
    (next_page (set_page_count 120 paginationInit)).items_per_page = 50 ∧
    items_map 2 = 50 ∧
    (change_items_per_page 2
      (next_page (set_page_count 120 paginationInit))).current_page = 2 := by
  refine ⟨?_, ?_, ?_, ?_⟩ <;> decide

/-- C8 amended: every invocation of the filter operation sets both the
manager's and the pagination widget's current page to 1; a page-size
selection resets the current page to 1 exactly when the selected size
differs from the one in effect — re-selecting the current size leaves the
widget state (current page included) unchanged. -/
theorem c8_page_reset_amended :
    (∀ t m, (filter_avatars t m).current_page = 1 ∧
            (filter_avatars t m).pagination.current_page = 1)
    ∧ (∀ idx w, (change_items_per_page idx w).current_page =
        if items_map idx ≠ w.items_per_page then 1 else w.current_page)
    ∧ (∀ idx w, items_map idx = w.items_per_page →
        change_items_per_page idx w = w) := by
  refine ⟨fun t m => ⟨rfl, ?_⟩, fun idx w => ?_, fun idx w h => ?_⟩
  · simp [filter_avatars, set_page_count]
  · by_cases h : items_map idx = w.items_per_page <;>
      simp [change_items_per_page, h]
  · simp [change_items_per_page, h]

/-- C5 counterexample: after `set_page_count 120` at 50 per page the widget
shows 3 total pages; changing the page size to 100 (combo index 3) updates
`items_per_page` but leaves `total_pages` at 3, while the claimed formula
gives max(1, ceil(120/100)) = 2 — the total-pages formula is not preserved
by `change_items_per_page`. -/
theorem c5_counterexample :
    (change_items_per_page 3 (set_page_count 120 paginationInit)).items_per_page
      = 100 ∧
    (change_items_per_page 3 (set_page_count 120 paginationInit)).total_pages
      = 3 ∧
    max 1 ((120 + 100 - 1) / 100) = 2 ∧
    (change_items_per_page 3 (set_page_count 120 paginationInit)).total_pages ≠
      max 1 ((120 +
        (change_items_per_page 3 (set_page_count 120 paginationInit)).items_per_page
          - 1) /
        (change_items_per_page 3 (set_page_count 120 paginationInit)).items_per_page) := by
  refine ⟨?_, ?_, ?_, ?_⟩ <;> decide

/-- C5 amended: `set_page_count` establishes
`total_pages = max(1, ceil(item_count / items_per_page))` together with the
clamping invariant 1 ≤ current_page ≤ total_pages (and an empty item set
yields page 1 of 1), and `prev_page`, `next_page` and `change_items_per_page`
all preserve the clamping invariant; but `change_items_per_page` does not
recompute `total_pages`, so the total-pages formula is re-established only by
the next `set_page_count` (see the counterexample). -/
theorem c5_pagination_invariant_amended (n idx : Nat) (w : PaginationWidget)
    (h1 : 1 ≤ w.current_page) (h2 : w.current_page ≤ w.total_pages) :
    ((set_page_count n w).total_pages =
        max 1 ((n + w.items_per_page - 1) / w.items_per_page)
      ∧ 1 ≤ (set_page_count n w).current_page
      ∧ (set_page_count n w).current_page ≤ (set_page_count n w).total_pages)
    ∧ ((set_page_count 0 w).current_page = 1
      ∧ (set_page_count 0 w).total_pages = 1)
    ∧ (1 ≤ (prev_page w).current_page
      ∧ (prev_page w).current_page ≤ (prev_page w).total_pages)
    ∧ (1 ≤ (next_page w).current_page
      ∧ (next_page w).current_page ≤ (next_page w).total_pages)
    ∧ (1 ≤ (change_items_per_page idx w).current_page
      ∧ (change_items_per_page idx w).current_page ≤
          (change_items_per_page idx w).total_pages) := by
  have h0 : (0 + w.items_per_page - 1) / w.items_per_page = 0 := by
    rcases Nat.eq_zero_or_pos w.items_per_page with hz | hp
    · simp [hz]
    · exact Nat.div_eq_of_lt (by omega)
  refine ⟨⟨rfl, ?_, ?_⟩, ⟨?_, ?_⟩, ⟨?_, ?_⟩, ⟨?_, ?_⟩, ⟨?_, ?_⟩⟩
  · simp only [set_page_count]
    omega
  · simp only [set_page_count]
    omega
  · simp only [set_page_count, h0]
    omega
  · simp only [set_page_count, h0]
    omega
  · simp only [prev_page]
    split <;> first | omega | (dsimp only; omega)
  · simp only [prev_page]
    split <;> first | omega | (dsimp only; omega)
  · simp only [next_page]
    split <;> first | omega | (dsimp only; omega)
  · simp only [next_page]
    split <;> first | omega | (dsimp only; omega)
  · simp only [change_items_per_page]
    split <;> first | omega | (dsimp only; omega)
  · simp only [change_items_per_page]
    split <;> first | omega | (dsimp only; omega)

/-- Witness for C5's amended statement: the initial widget, item count 0 and
page-size index 3. -/
theorem c5_pagination_invariant_amended_witness :
    1 ≤ paginationInit.current_page ∧
    paginationInit.current_page ≤ paginationInit.total_pages ∧
    (((set_page_count 0 paginationInit).total_pages =
        max 1 ((0 + paginationInit.items_per_page - 1) / paginationInit.items_per_page)
      ∧ 1 ≤ (set_page_count 0 paginationInit).current_page
      ∧ (set_page_count 0 paginationInit).current_page ≤
          (set_page_count 0 paginationInit).total_pages)
    ∧ ((set_page_count 0 paginationInit).current_page = 1
      ∧ (set_page_count 0 paginationInit).total_pages = 1)
    ∧ (1 ≤ (prev_page paginationInit).current_page
      ∧ (prev_page paginationInit).current_page ≤
          (prev_page paginationInit).total_pages)
    ∧ (1 ≤ (next_page paginationInit).current_page
      ∧ (next_page paginationInit).current_page ≤
          (next_page paginationInit).total_pages)
    ∧ (1 ≤ (change_items_per_page 3 paginationInit).current_page
      ∧ (change_items_per_page 3 paginationInit).current_page ≤
          (change_items_per_page 3 paginationInit).total_pages)) :=
  ⟨by decide, by decide,
    c5_pagination_invariant_amended 0 3 paginationInit (by decide) (by decide)⟩

theorem pyIn_empty_left (s : String) : pyIn "" s = true := by
  unfold pyIn
  exact decide_eq_true List.nil_infix

/-- C6: the filtered subset is exactly the in-order sublist of records whose
lowercased name, author or description contains the lowercased filter text
(missing fields acting as empty strings); the empty filter text yields the
full result set; and every record of any displayed page slice belongs to the
filtered subset. -/
theorem c6_filter_characterization :
    (∀ t data, filter_avatars_list t data =
        data.filter (fun a => claimMatches t a))
    ∧ (∀ data, filter_avatars_list "" data = data)
    ∧ (∀ t data page per_page (a : AvatarRecord),
        a ∈ display_page_slice page per_page (filter_avatars_list t data) →
          a ∈ filter_avatars_list t data) := by
  refine ⟨fun t data => ?_, fun data => rfl, fun t data page per_page a h => ?_⟩
  · unfold filter_avatars_list
    by_cases he : pyLower t = ""
    · simp [he, claimMatches, pyIn_empty_left]
    · simp only [he, bne_iff_ne, ne_eq, not_false_eq_true, if_true]
      rfl
  · simp only [display_page_slice] at h
    exact List.mem_of_mem_drop (List.mem_of_mem_take h)

theorem takeUntilSep_spec (sep : List Char) (hsep : sep ≠ []) :
    ∀ l : List Char, sep <:+: l →
      ∃ b, l = takeUntilSep sep l ++ sep ++ b ∧
        ¬ sep <:+: (takeUntilSep sep l ++ sep.dropLast) := by
  intro l
  induction l with
  | nil =>
      intro h
      exact absurd (List.infix_nil.mp h) hsep
  | cons c rest ih =>
      intro h
      by_cases hpre : sep.isPrefixOf (c :: rest)
      · obtain ⟨b, hb⟩ := List.isPrefixOf_iff_prefix.mp hpre
        refine ⟨b, ?_, ?_⟩
        · simp only [takeUntilSep, hpre, if_true, List.nil_append]
          exact hb.symm
        · simp only [takeUntilSep, hpre, if_true, List.nil_append]
          intro hinf
          have hle := hinf.length_le
          have hdl : sep.dropLast.length = sep.length - 1 :=
            List.length_dropLast sep
          have hpos : 0 < sep.length := List.length_pos.mpr hsep
          omega
      · have hp : ¬ sep <+: c :: rest :=
          fun hc => hpre (List.isPrefixOf_iff_prefix.mpr hc)
        have hrest : sep <:+: rest := by
          rcases List.infix_cons_iff.mp h with h1 | h2
          · exact absurd h1 hp
          · exact h2
        obtain ⟨b, hb, hni⟩ := ih hrest
        set tu := takeUntilSep sep rest with htu
        have htus : takeUntilSep sep (c :: rest) = c :: tu := by
          simp [takeUntilSep, hpre, htu]
        refine ⟨b, ?_, ?_⟩
        · rw [htus, List.cons_append, List.cons_append, ← hb]
        · rw [htus, List.cons_append]
          intro hinf
          rcases List.infix_cons_iff.mp hinf with h1 | h2
          · apply hp
            have hstep : c :: (tu ++ sep.dropLast) <+:
                c :: rest := by
              rw [hb]
              refine List.cons_prefix_cons.mpr ⟨rfl, ?_⟩
              rw [List.append_assoc]
              exact (List.prefix_append_right_inj _).mpr
                (( List.dropLast_prefix sep).trans (List.prefix_append sep b))
            exact h1.trans hstep
          · exact hni h2

/-- C7: a URL not containing the security-variant segment is fetched
unchanged; a URL containing it is truncated exactly at the segment's first
occurrence (the truncated part is what precedes the segment, and no earlier
occurrence exists); in particular a URL ending in `.../file/variant/security`
is fetched as `.../file`. -/
theorem c7_variant_security_truncation :
    (∀ u : String, pyIn securityVariantSegment u = false → fixDownloadUrl u = u)
    ∧ (∀ u : String, pyIn securityVariantSegment u = true →
        ∃ b, u.data = (fixDownloadUrl u).data ++ securityVariantSegment.data ++ b
          ∧ ¬ securityVariantSegment.data <:+:
              ((fixDownloadUrl u).data ++ securityVariantSegment.data.dropLast))
    ∧ fixDownloadUrl
        "https://api.vrchat.cloud/api/1/file/file_abc/1/file/variant/security"
        = "https://api.vrchat.cloud/api/1/file/file_abc/1/file"
    ∧ download_request_url "https://example.com/api/1/file/xyz"
        = "https://example.com/api/1/file/xyz" := by
  refine ⟨fun u h => ?_, fun u h => ?_, by decide, by decide⟩
  · simp [fixDownloadUrl, h]
  · have hinf : securityVariantSegment.data <:+: u.data := by
      simpa [pyIn] using h
    have hsep : securityVariantSegment.data ≠ [] := by decide
    obtain ⟨b, hb, hni⟩ :=
      takeUntilSep_spec securityVariantSegment.data hsep u.data hinf
    have hfix : (fixDownloadUrl u).data =
        takeUntilSep securityVariantSegment.data u.data := by
      simp [fixDownloadUrl, h]
    rw [hfix]
    exact ⟨b, hb, hni⟩

/-- Witness for C7: the first part applied at a URL without the segment, the
second at a URL with it. -/
theorem c7_variant_security_truncation_witness :
    (pyIn securityVariantSegment "https://a/b" = false ∧
      fixDownloadUrl "https://a/b" = "https://a/b") ∧
    pyIn securityVariantSegment "abc/variant/security" = true ∧
    (∃ b, ("abc/variant/security" : String).data =
        (fixDownloadUrl "abc/variant/security").data ++
          securityVariantSegment.data ++ b
      ∧ ¬ securityVariantSegment.data <:+:
          ((fixDownloadUrl "abc/variant/security").data ++
            securityVariantSegment.data.dropLast)) :=
  ⟨⟨by decide, c7_variant_security_truncation.1 "https://a/b" (by decide)⟩,
    by decide, c7_variant_security_truncation.2.1 "abc/variant/security" (by decide)⟩

/-- C4: the source's per-percent guard (`if percent % 1 == 0`, SMP.py 2626,
commented "Only update UI every 1%") is vacuously true, so a progress signal
is emitted for every written chunk rather than once per whole-percent
increment: with content-length 1000 and two 4-byte chunks the worker emits
two signals, both at percent 0, though no whole-percent increment occurred.
The unknown-size half of the claim does hold: with content-length 0 nothing
is emitted and the body is still written in full. -/
theorem c4_progress_emission_bug :
    ((download_file_worker "u" "p" ⟨200, 1000, [4, 4]⟩).progressEmits.map
        Prod.fst = [0, 0])
    ∧ (download_file_worker "u" "p" ⟨200, 1000, [4, 4]⟩).progressEmits.length = 2
    ∧ (download_file_worker "u" "p" ⟨200, 1000, [4, 4]⟩).fileOpened = true
    ∧ (download_file_worker "u" "p" ⟨200, 0, [4, 4]⟩).progressEmits = []
    ∧ (download_file_worker "u" "p" ⟨200, 0, [4, 4]⟩).bytesWritten = 8
    ∧ (download_file_worker "u" "p" ⟨200, 0, [4, 4]⟩).fileOpened = true := by
  refine ⟨?_, ?_, rfl, ?_, rfl, rfl⟩ <;> decide

/-- C10: a non-200 response makes the download worker abort with an error
message containing the status code, before the destination path is opened:
the file is neither created nor written and no progress is reported. -/
theorem c10_non200_aborts (url path : String) (resp : DownloadResponse)
    (h : resp.status ≠ 200) :
    (download_file_worker url path resp).result =
      Except.error ("Download failed with status " ++ toString resp.status)
    ∧ pyIn (toString resp.status)
        ("Download failed with status " ++ toString resp.status) = true
    ∧ (download_file_worker url path resp).fileOpened = false
    ∧ (download_file_worker url path resp).bytesWritten = 0
    ∧ (download_file_worker url path resp).progressEmits = [] := by
  refine ⟨?_, ?_, ?_, ?_, ?_⟩
  · simp [download_file_worker, h]
  · unfold pyIn
    apply decide_eq_true
    rw [String.data_append]
    exact (List.suffix_append _ _).isInfix
  · simp [download_file_worker, h]
  · simp [download_file_worker, h]
  · simp [download_file_worker, h]

/-- Witness for C10 at a concrete 404 response. -/
theorem c10_non200_aborts_witness :
    ((⟨404, 7, [3]⟩ : DownloadResponse).status ≠ 200) ∧
    ((download_file_worker "u" "p" ⟨404, 7, [3]⟩).result =
        Except.error ("Download failed with status " ++
          toString (⟨404, 7, [3]⟩ : DownloadResponse).status)
      ∧ pyIn (toString (⟨404, 7, [3]⟩ : DownloadResponse).status)
          ("Download failed with status " ++
            toString (⟨404, 7, [3]⟩ : DownloadResponse).status) = true
      ∧ (download_file_worker "u" "p" ⟨404, 7, [3]⟩).fileOpened = false
      ∧ (download_file_worker "u" "p" ⟨404, 7, [3]⟩).bytesWritten = 0
      ∧ (download_file_worker "u" "p" ⟨404, 7, [3]⟩).progressEmits = []) :=
  ⟨by decide, c10_non200_aborts "u" "p" ⟨404, 7, [3]⟩ (by decide)⟩

/-- Witness for C6's page-subset part at a one-record data set. -/
theorem c6_filter_characterization_witness :
    (⟨some "Alpha", none, none⟩ : AvatarRecord) ∈
      display_page_slice 1 10
        (filter_avatars_list "a" [⟨some "Alpha", none, none⟩]) ∧
    (⟨some "Alpha", none, none⟩ : AvatarRecord) ∈
      filter_avatars_list "a" [⟨some "Alpha", none, none⟩] :=
  ⟨by decide,
    c6_filter_characterization.2.2 "a" [⟨some "Alpha", none, none⟩] 1 10
      ⟨some "Alpha", none, none⟩ (by decide)⟩

/-- Witness for C8's no-change part: re-selecting the active page size
(index 2, 50 per page) leaves the initial widget unchanged. -/
theorem c8_page_reset_amended_witness :
    items_map 2 = paginationInit.items_per_page ∧
    change_items_per_page 2 paginationInit = paginationInit :=
  ⟨by decide, c8_page_reset_amended.2.2 2 paginationInit (by decide)⟩
